import Mathlib

/-!
Verification of the deterministic production-pipeline core of the
pokercats-agents-backend repository: the eight-part timing allocator, beat
generator and timing validator (tools/alt_beat_generator.py), the shot
planner (tools/shot_planner.py), the tool selector and production-plan
aggregator (tools/tool_selector.py), the clarifying-questions generator
(tools/clarifying_questions.py), and the pipeline orchestrator
(workflows/production_orchestrator.py).

Embedding conventions:
* Python dicts with string keys and string values (the requirements
  document and the clarifications mapping) are association lists; a Python
  dict holds one entry per key, and lookup takes the first match.
* Python ints are `Int`; `x // y` is `Int.fdiv` (floor division) and
  `int(f)` applied to a float truncates toward zero, which is `Int.div`.
* Python floats are embedded as exact rationals.  Every float computed by
  this code is a product or sum of integers with two-decimal literals
  (0.05, 0.12, ..., cost rates); for all magnitudes below about 10^14 the
  IEEE double result truncates/rounds to the same integer or cent value as
  exact rational arithmetic, so the rational embedding is faithful on the
  entire range the program handles.
* Python `round` uses round-half-to-even, embedded by `pyRoundHalfEven`.
* Fallible code (the `int(...)` parse of `estimated_duration`, attribute
  access on `None`) returns `Except String`.
* `datetime.now()`-derived id strings are threaded as an explicit `now`
  argument.
-/

namespace ProductionPipeline

/-- A Python string-keyed, string-valued dict, as an association list. -/
abbrev Dict := List (String × String)

/-- `d.get(k)`: first binding of `k`, if any. -/
def pyGet (d : Dict) (k : String) : Option String :=
  (d.find? (fun p => p.1 == k)).map Prod.snd

/-- `d.get(k, default)`. -/
def pyGetD (d : Dict) (k defaultValue : String) : String :=
  (pyGet d k).getD defaultValue

/-- Python truthiness of `d.get(k)` under `if not ...`: missing keys and
empty strings are falsy. -/
def pyFalsyStr (o : Option String) : Bool :=
  match o with
  | none => true
  | some s => s == ""

/-- Python truthiness of an optional dict: `None` and `{}` are falsy. -/
def pyTruthyDict (o : Option Dict) : Bool :=
  match o with
  | none => false
  | some l => !l.isEmpty

/-- `d.update(upd)` / `{**d, **upd}`: existing keys keep their position and
take the new value; new keys are appended in `upd` order. -/
def pyUpdate (d upd : Dict) : Dict :=
  (d.map (fun p => match pyGet upd p.1 with
    | some v => (p.1, v)
    | none => p))
  ++ upd.filter (fun q => (pyGet d q.1).isNone)

/-- Lookup in an association list with values of any type (embeds access to
the module-level recommendation tables). -/
def alistGet {α : Type} (l : List (String × α)) (k : String) : Option α :=
  (l.find? (fun p => p.1 == k)).map Prod.snd

/-- Python `round(q)`: round half to even. -/
def pyRoundHalfEven (q : ℚ) : Int :=
  let f := ⌊q⌋
  let r := q - f
  if r < 1/2 then f
  else if 1/2 < r then f + 1
  else if f % 2 = 0 then f else f + 1

/-- Python `round(q, 2)`. -/
def pyRound2 (q : ℚ) : ℚ :=
  (pyRoundHalfEven (q * 100) : ℚ) / 100

/-- Python `round(q, 1)`. -/
def pyRound1 (q : ℚ) : ℚ :=
  (pyRoundHalfEven (q * 10) : ℚ) / 10

/-- `int(d * (n/100))` for the two-decimal float literals of the timing
allocator (0.05 = 5/100, ...).  Python multiplies by the IEEE double and
truncates toward zero; on the int range the program handles this equals
truncation of the exact rational product, and `Int.div` truncates toward
zero. -/
def intMulPct (d n : Int) : Int :=
  Int.tdiv (d * n) 100

/-- Digits of a decimal numeral, or `none` if empty or not all digits. -/
def digitsToNat (cs : List Char) : Option Nat :=
  if cs ≠ [] ∧ cs.all (fun c => c.isDigit) then
    some (cs.foldl (fun a c => a * 10 + (c.toNat - 48)) 0)
  else none

/-- Python `int(s)` on the numeral forms this repository produces: an
optional sign followed by decimal digits (whitespace/underscore forms are
not exercised by any caller). `none` embeds the `ValueError`. -/
def pyIntParse (s : String) : Option Int :=
  match s.toList with
  | [] => none
  | c :: rest =>
    if c = '-' then (digitsToNat rest).map (fun n => -(n : Int))
    else if c = '+' then (digitsToNat rest).map (fun n => (n : Int))
    else (digitsToNat (c :: rest)).map (fun n => (n : Int))

/-- `s.replace('s', '')`: remove every occurrence of the character s. -/
def stripS (s : String) : String :=
  String.mk (s.toList.filter (fun c => c ≠ 's'))

/-- Python `str.title()` (word-initial alphabetic characters uppercased,
the rest lowercased). -/
def pyTitle (s : String) : String :=
  String.mk (pyTitleAux s.toList true)
where
  pyTitleAux : List Char → Bool → List Char
  | [], _ => []
  | c :: cs, startWord =>
    (if c.isAlpha then (if startWord then c.toUpper else c.toLower) else c)
      :: pyTitleAux cs (!c.isAlpha)

/-- `s.replace('_', ' ')`. -/
def underscoreToSpace (s : String) : String :=
  String.mk (s.toList.map (fun c => if c = '_' then ' ' else c))

/-- Zero-padded two-digit field `f-string {n:02d}` (sign counts toward the
width, as in Python). -/
def fmt02 (n : Int) : String :=
  if 0 ≤ n ∧ n < 10 then "0" ++ toString n else toString n

/-- Zero-padded three-digit field `{n:03d}`. -/
def fmt03 (n : Int) : String :=
  if 0 ≤ n ∧ n < 10 then "00" ++ toString n
  else if 0 ≤ n ∧ n < 100 then "0" ++ toString n
  else toString n

/-- Timecode string `f'00:00:{t:02d}:00'` used for beat boundaries. -/
def timecodeStr (t : Int) : String :=
  "00:00:" ++ fmt02 t ++ ":00"

/-! ## Data models (models/alt_beat.py)

The pydantic models are runtime-validated: a `Literal[...]` field or a
`Field(ge=..., le=...)` bound raises `ValidationError` at model
construction when the supplied value is outside the declared set.  The
embedded structures store the underlying values (strings / ints, as
pydantic does); the declared constraints are enforced, exactly at the
models' construction sites, by the generator functions below
(`generateAltBeat`, `generateAltBeats`), which return `Except.error` where
the source raises `ValidationError`. -/

/-- models/alt_beat.py line 12: `ShotType` Literal values. -/
def ShotTypeValues : List String :=
  [ "extreme_closeup", "closeup", "medium_closeup",
    "medium", "medium_wide", "wide", "extreme_wide" ]

/-- models/alt_beat.py line 17: `CameraMovement` Literal values.  Note
that `slow_push` — used by three `BEAT_TEMPLATES` entries — is *not* in
this set. -/
def CameraMovementValues : List String :=
  [ "static", "pan", "tilt", "dolly", "zoom", "handheld" ]

/-- models/alt_beat.py line 19: `EightPartBeat` Literal values. -/
def EightPartBeatValues : List String :=
  [ "hook", "inciting_event", "first_plot_point", "first_pinch_point",
    "midpoint", "second_pinch_point", "third_plot_point", "climax" ]

/-- models/alt_beat.py line 24: `Complexity` Literal values. -/
def ComplexityValues : List String := ["low", "medium", "high"]

/-- models/alt_beat.py `ScriptContent` (no constrained fields). -/
structure ScriptContent where
  action : String
  dialogue : Option String := none
  voiceover : Option String := none
  on_screen_text : Option String := none
deriving DecidableEq

/-- models/alt_beat.py `VisualRequirements`.  `shot_type : ShotType`,
`camera_movement : CameraMovement` and `complexity : Complexity` are
pydantic Literal fields: membership in `ShotTypeValues`,
`CameraMovementValues` and `ComplexityValues` is checked at construction
(in `generateAltBeat`), which errors otherwise. -/
structure VisualRequirements where
  shot_type : String
  camera_movement : String
  location : String
  lighting : String
  visual_keywords : List String
  complexity : String
deriving DecidableEq

/-- models/alt_beat.py `AudioRequirements`.  `music_mood` is `Optional[str]`. -/
structure AudioRequirements where
  dialogue_present : Bool
  sound_effects : List String
  music_mood : Option String := none
  ambient : Option String := none
deriving DecidableEq

/-- models/alt_beat.py `EmotionalContext`. -/
structure EmotionalContext where
  character_emotion : String
  audience_emotion : String
  emotional_arc_position : String
  intensity : Int
deriving DecidableEq

/-- models/alt_beat.py `NarrativeFunction`. -/
structure NarrativeFunction where
  beat_type : String
  story_beat_number : Int
  eight_part_position : String
  info_conveyed : String
  raises_question : Option String := none
  answers_question : Option String := none
deriving DecidableEq

/-- models/alt_beat.py `ProductionMetadata`. -/
structure ProductionMetadata where
  estimated_complexity : String
  requires_vfx : Bool
  requires_custom_assets : Bool
  suggested_tool_category : String
  reference_images : List String := []
deriving DecidableEq

/-- models/alt_beat.py `AlternativeBeat` (never populated by the generator). -/
structure AlternativeBeat where
  alt_id : String
  condition : String
  script : ScriptContent
  emotional_context : EmotionalContext
deriving DecidableEq

/-- models/alt_beat.py `ALTBeat`. -/
structure ALTBeat where
  beat_id : String
  scene_id : String
  sequence_order : Int
  timecode_start : String
  timecode_end : String
  duration_seconds : Int
  story_question : String
  story_answer : String
  script : ScriptContent
  visual_requirements : VisualRequirements
  audio_requirements : AudioRequirements
  emotional_context : EmotionalContext
  narrative_function : NarrativeFunction
  production_metadata : ProductionMetadata
  alternatives : List AlternativeBeat := []
deriving DecidableEq

/-- models/alt_beat.py `ScriptMetadata`.  `tone: str` is a mandatory
string: constructing it with the Python `None` tone that `toneOf` can
compute raises `ValidationError`, which `generateAltBeats` embeds as an
`Except.error` at the construction site. -/
structure ScriptMetadata where
  title : String
  duration_seconds : Int
  target_audience : String
  primary_message : String
  tone : String
  style : String
  created_at : String
deriving DecidableEq

/-- models/alt_beat.py `ScriptStructure` (`structure` is a Lean keyword, so
the Script field holding it is named `struct`). -/
structure ScriptStructure where
  total_beats : Int
  eight_part_breakdown : List (String × Int × Int)
  act_1_beats : List String := []
  act_2_beats : List String := []
  act_3_beats : List String := []
deriving DecidableEq

/-- models/alt_beat.py `Script`.  `mode : Literal['hitl', 'yolo']` is
checked at construction in `generateAltBeats`. -/
structure Script where
  script_id : String
  vrd_ref : String
  mode : String
  metadata : ScriptMetadata
  struct : ScriptStructure
  beats : List ALTBeat
  total_beat_count : Int
  narrative_summary : String
deriving DecidableEq

/-! ## Data models (models/shot.py) -/

/-- models/shot.py `ShotComposition`. -/
structure ShotComposition where
  rule_of_thirds : Bool := true
  focal_point : String
  depth_of_field : String
deriving DecidableEq

/-- models/shot.py `ShotLighting`. -/
structure ShotLighting where
  time_of_day : String
  mood : String
  key_light : String
  practical_lights : List String := []
deriving DecidableEq

/-- models/shot.py `SetRequirements`. -/
structure SetRequirements where
  location_type : String
  props : List String := []
  set_dressing : String
deriving DecidableEq

/-- models/shot.py `TechnicalComplexity`. -/
structure TechnicalComplexity where
  complexity_score : Int
  requires_motion : Bool
  requires_vfx : Bool
  requires_compositing : Bool
  estimated_generation_time_seconds : Int
deriving DecidableEq

/-- models/shot.py `StoryboardFrame`. -/
structure StoryboardFrame where
  description : String
  reference_image_prompt : String
  thumbnail_url : Option String := none
deriving DecidableEq

/-- models/shot.py `Shot`. -/
structure Shot where
  shot_id : String
  beat_ref : String
  shot_number : Int
  shot_type : String
  subject : String
  camera_angle : String
  camera_movement : String
  duration_seconds : Int
  frame_rate : Int := 24
  resolution : String := "1080p"
  composition : ShotComposition
  lighting : ShotLighting
  set_requirements : SetRequirements
  technical_complexity : TechnicalComplexity
  storyboard_frame : StoryboardFrame
deriving DecidableEq

/-- models/shot.py `AssetSummary`. -/
structure AssetSummary where
  total_unique_locations : Int
  total_unique_shot_types : Int
  total_character_shots : Int
  vfx_shots : Int
  requires_custom_models : Bool
  estimated_total_time_minutes : ℚ
deriving DecidableEq

/-- models/shot.py `ShotList`. -/
structure ShotList where
  shot_list_id : String
  script_ref : String
  mode : String
  total_shots : Int
  total_scenes : Int
  shots : List Shot
  asset_summary : AssetSummary
  created_at : String
deriving DecidableEq

/-! ## Data models (models/production_plan.py) -/

/-- models/production_plan.py `WorkflowStep`. -/
structure WorkflowStep where
  step : Int
  tool : String
  purpose : String
  workflow_type : String
  duration_seconds : Int := 0
  estimated_time_seconds : Int
  cost_usd : ℚ
deriving DecidableEq

/-- models/production_plan.py `Workflow`. -/
structure Workflow where
  workflow_id : String
  workflow_name : String
  steps : List WorkflowStep
  total_cost : ℚ
  total_time_seconds : Int
  quality_score : ℚ
deriving DecidableEq

/-- models/production_plan.py `ShotPlan`. -/
structure ShotPlan where
  shot_id : String
  shot_description : String
  recommended_workflow : Workflow
  alternative_workflows : List Workflow := []
  production_notes : List String := []
deriving DecidableEq

/-- models/production_plan.py `WorkflowSummary`. -/
structure WorkflowSummary where
  total_unique_tools : Int
  primary_tools : List (String × ℚ)
  workflow_types : List (String × Int)
deriving DecidableEq

/-- models/production_plan.py `CostBreakdown`. -/
structure CostBreakdown where
  by_tool : List (String × ℚ)
deriving DecidableEq

/-- models/production_plan.py `TimelineEstimate`. -/
structure TimelineEstimate where
  parallel_generation : Bool := true
  sequential_time_minutes : ℚ
  parallel_time_minutes : ℚ
  post_processing_minutes : Int := 30
deriving DecidableEq

/-- models/production_plan.py `ProductionPlan`. -/
structure ProductionPlan where
  production_plan_id : String
  shot_list_ref : String
  mode : String
  total_estimated_cost_usd : ℚ
  total_estimated_time_minutes : ℚ
  shot_plans : List ShotPlan
  workflow_summary : WorkflowSummary
  cost_breakdown : CostBreakdown
  timeline_estimate : TimelineEstimate
deriving DecidableEq

/-! ## tools/alt_beat_generator.py -/

/-- One entry of `BEAT_TEMPLATES`. -/
structure BeatTemplate where
  story_question : String
  story_answer : String
  shot_types : List String
  camera_movement : String
  lighting : String
  intensity : Int
  complexity : String
deriving DecidableEq

/-- `BEAT_TEMPLATES` (tools/alt_beat_generator.py). -/
def BEAT_TEMPLATES : List (String × BeatTemplate) :=
  [ ("hook",
     { story_question := "Why should the viewer keep watching?"
       story_answer := "Create immediate engagement through problem recognition"
       shot_types := ["closeup", "medium_closeup"]
       camera_movement := "static"
       lighting := "professional_bright"
       intensity := 7
       complexity := "high" }),
    ("inciting_event",
     { story_question := "What problem does the viewer face?"
       story_answer := "Establish the core challenge and pain point"
       shot_types := ["medium", "medium_wide"]
       camera_movement := "slow_push"
       lighting := "professional_neutral"
       intensity := 6
       complexity := "medium" }),
    ("first_plot_point",
     { story_question := "What solution exists?"
       story_answer := "Introduce the product/service as the answer"
       shot_types := ["wide", "medium"]
       camera_movement := "dolly"
       lighting := "professional_bright"
       intensity := 5
       complexity := "medium" }),
    ("first_pinch_point",
     { story_question := "What obstacles remain?"
       story_answer := "Show challenges that still need addressing"
       shot_types := ["closeup", "medium"]
       camera_movement := "static"
       lighting := "professional_neutral"
       intensity := 6
       complexity := "medium" }),
    ("midpoint",
     { story_question := "How does the solution transform the situation?"
       story_answer := "Demonstrate the key breakthrough or insight"
       shot_types := ["medium", "wide"]
       camera_movement := "slow_push"
       lighting := "professional_bright"
       intensity := 8
       complexity := "high" }),
    ("second_pinch_point",
     { story_question := "What proves this works?"
       story_answer := "Present evidence and social proof"
       shot_types := ["closeup", "medium_closeup"]
       camera_movement := "static"
       lighting := "professional_bright"
       intensity := 7
       complexity := "medium" }),
    ("third_plot_point",
     { story_question := "What\x27s the final hurdle?"
       story_answer := "Address last objections or concerns"
       shot_types := ["medium", "medium_wide"]
       camera_movement := "slow_push"
       lighting := "professional_neutral"
       intensity := 6
       complexity := "medium" }),
    ("climax",
     { story_question := "What action should the viewer take?"
       story_answer := "Clear, compelling call-to-action"
       shot_types := ["medium", "wide"]
       camera_movement := "dolly"
       lighting := "professional_bright"
       intensity := 9
       complexity := "high" }) ]

/-- The hook template, used below as the fallback for unknown positions
(`BEAT_TEMPLATES.get(position, BEAT_TEMPLATES['hook'])`); its presence as
the first list entry makes the fallback total. -/
def hookTemplate : BeatTemplate :=
  { story_question := "Why should the viewer keep watching?"
    story_answer := "Create immediate engagement through problem recognition"
    shot_types := ["closeup", "medium_closeup"]
    camera_movement := "static"
    lighting := "professional_bright"
    intensity := 7
    complexity := "high" }

/-- `calculate_eight_part_timing` (tools/alt_beat_generator.py, lines
91-113).  The Python dict preserves insertion order, embedded as an
association list. -/
def calculateEightPartTiming (duration_seconds : Int) : List (String × Int × Int) :=
  [ ("hook", (0, max 3 (intMulPct duration_seconds 5))),
    ("inciting_event", (intMulPct duration_seconds 5, intMulPct duration_seconds 12)),
    ("first_plot_point", (intMulPct duration_seconds 12, intMulPct duration_seconds 25)),
    ("first_pinch_point", (intMulPct duration_seconds 25, intMulPct duration_seconds 37)),
    ("midpoint", (intMulPct duration_seconds 37, intMulPct duration_seconds 50)),
    ("second_pinch_point", (intMulPct duration_seconds 50, intMulPct duration_seconds 62)),
    ("third_plot_point", (intMulPct duration_seconds 62, intMulPct duration_seconds 75)),
    ("climax", (intMulPct duration_seconds 75, duration_seconds)) ]

/-- The tone expression shared by `generate_alt_beat` (line 142) and
`generate_alt_beats` (line 229):
`clarifications.get('tone') if clarifications else vrd.get('tone', 'professional')`.
When the clarifications dict is truthy (present and non-empty) the result
is its 'tone' value, which is Python `None` (here `none`) when the key is
absent; only a `None` or empty clarifications dict falls back to the RD. -/
def toneOf (clarifications : Option Dict) (vrd : Dict) : Option String :=
  if pyTruthyDict clarifications then pyGet (clarifications.getD []) "tone"
  else some (pyGetD vrd "tone" "professional")

/-- The first pydantic `ValidationError` (if any) raised while
constructing the sub-models of one beat, in the source's construction
order: `VisualRequirements` (shot_type, camera_movement and complexity
Literals), then `EmotionalContext` (intensity 1-10), then
`NarrativeFunction` (eight_part_position Literal).
`ProductionMetadata.estimated_complexity` revalidates the already-checked
template complexity, so it adds no case. -/
def pydanticBeatError (position : String) (template : BeatTemplate) : Option String :=
  if ¬ ShotTypeValues.contains (template.shot_types.headD "") then
    some "ValidationError: VisualRequirements.shot_type"
  else if ¬ CameraMovementValues.contains template.camera_movement then
    some "ValidationError: VisualRequirements.camera_movement"
  else if ¬ ComplexityValues.contains template.complexity then
    some "ValidationError: VisualRequirements.complexity"
  else if ¬ (1 ≤ template.intensity ∧ template.intensity ≤ 10) then
    some "ValidationError: EmotionalContext.intensity"
  else if ¬ EightPartBeatValues.contains position then
    some "ValidationError: NarrativeFunction.eight_part_position"
  else none

/-- `generate_alt_beat` (tools/alt_beat_generator.py, lines 116-208).
`end` is a Lean keyword, so the parameter is `end_`.

The function constructs pydantic models, whose declared constraints are
validated at construction; a violation raises `ValidationError`, embedded
as `Except.error` (messages abbreviated to the model and field).  The
checks, factored into `pydanticBeatError`, run in the order the
sub-models are constructed in the source's `ALTBeat(...)` call —
`camera_movement` is where the three `slow_push` templates fail. -/
def generateAltBeat (position : String) (start end_ : Int) (beat_number : Int)
    (vrd : Dict) (clarifications : Option Dict) : Except String ALTBeat :=
  let template := (alistGet BEAT_TEMPLATES position).getD hookTemplate
  let duration := end_ - start
  let tone := toneOf clarifications vrd
  let video_type := pyGetD vrd "video_type" "explainer"
  match pydanticBeatError position template with
  | some e => .error e
  | none =>
    .ok
      { beat_id := toString beat_number ++ ".0"
        scene_id := "scene_" ++ fmt03 (Int.fdiv (beat_number - 1) 3 + 1)
        sequence_order := beat_number
        timecode_start := timecodeStr start
        timecode_end := timecodeStr end_
        duration_seconds := duration
        story_question := template.story_question
        story_answer := template.story_answer
        script :=
          { action := pyTitle (underscoreToSpace position) ++ " action sequence"
            dialogue := none
            voiceover := some ("Voiceover for " ++ position ++ " (" ++ toString duration ++ "s)")
            on_screen_text := none }
        visual_requirements :=
          { shot_type := template.shot_types.headD ""
            camera_movement := template.camera_movement
            location := "studio"
            lighting := template.lighting
            visual_keywords := [position, video_type]
            complexity := template.complexity }
        audio_requirements :=
          { dialogue_present := false
            sound_effects := if beat_number > 1 then ["transition"] else []
            music_mood := tone
            ambient := some "professional_studio" }
        emotional_context :=
          { character_emotion :=
              if position == "climax" || position == "midpoint" then "confident" else "curious"
            audience_emotion := if position == "hook" then "engaged" else "interested"
            emotional_arc_position := position
            intensity := template.intensity }
        narrative_function :=
          { beat_type := position
            story_beat_number := beat_number
            eight_part_position := position
            info_conveyed := template.story_answer
            raises_question := some template.story_question
            answers_question := if beat_number > 1 then some template.story_answer else none }
        production_metadata :=
          { estimated_complexity := template.complexity
            requires_vfx := position == "hook" || position == "midpoint" || position == "climax"
            requires_custom_assets := true
            suggested_tool_category := if duration > 5 then "text_to_video" else "image_to_video"
            reference_images := [] }
        alternatives := [] }

/-- The beat-construction loop of `generate_alt_beats` (lines 235-245):
positions with non-positive span are skipped and do not consume a beat
number; the first `ValidationError` raised inside `generate_alt_beat`
aborts the loop (and the surrounding call), as an uncaught Python
exception does. -/
def beatsFromTiming (timing : List (String × Int × Int)) (beat_count : Int)
    (vrd : Dict) (clarifications : Option Dict) : Except String (List ALTBeat) :=
  match timing with
  | [] => .ok []
  | (position, start, end_) :: rest =>
    if end_ - start ≤ 0 then beatsFromTiming rest beat_count vrd clarifications
    else
      match generateAltBeat position start end_ beat_count vrd clarifications with
      | .error e => .error e
      | .ok beat =>
        match beatsFromTiming rest (beat_count + 1) vrd clarifications with
        | .error e => .error e
        | .ok beats => .ok (beat :: beats)

/-- `generate_alt_beats` (tools/alt_beat_generator.py, lines 211-278).
`now` stands for the `datetime.now().strftime(...)` timestamp in the
script id.  The error paths, in the order the source hits them:
`int(duration_str.replace('s', ''))` raises `ValueError` on a non-numeric
string; the beat loop propagates any `ValidationError` from
`generate_alt_beat` (every duration whose timing gives one of the
`slow_push` segments — inciting_event, midpoint, third_plot_point — a
positive span fails here, including the 60-second default);
`ScriptMetadata(tone=...)` raises when the computed tone is `None`
(non-empty clarifications lacking the key); `Script(mode=...)` rejects a
mode outside `Literal['hitl', 'yolo']`. -/
def generateAltBeats (vrd : Dict) (clarifications : Option Dict) (mode : String)
    (now : String) : Except String Script :=
  let duration_str := pyGetD vrd "estimated_duration" "60s"
  match pyIntParse (stripS duration_str) with
  | none => Except.error ("ValueError: invalid literal for int: " ++ duration_str)
  | some duration_seconds =>
    let video_type := pyGetD vrd "video_type" "explainer"
    let tone := toneOf clarifications vrd
    let eight_part_timing := calculateEightPartTiming duration_seconds
    match beatsFromTiming eight_part_timing 1 vrd clarifications with
    | .error e => .error e
    | .ok beats =>
      let inAct (positions : List String) (b : ALTBeat) : Bool :=
        positions.contains b.narrative_function.eight_part_position
      let struct : ScriptStructure :=
        { total_beats := beats.length
          eight_part_breakdown := eight_part_timing
          act_1_beats :=
            (beats.filter (inAct ["hook", "inciting_event", "first_plot_point"])).map
              (fun b => b.beat_id)
          act_2_beats :=
            (beats.filter (inAct ["first_pinch_point", "midpoint", "second_pinch_point"])).map
              (fun b => b.beat_id)
          act_3_beats :=
            (beats.filter (inAct ["third_plot_point", "climax"])).map (fun b => b.beat_id) }
      match tone with
      | none => .error "ValidationError: ScriptMetadata.tone"
      | some tone_str =>
        let metadata : ScriptMetadata :=
          { title := pyGetD vrd "project_name" (pyTitle video_type ++ " Video")
            duration_seconds := duration_seconds
            target_audience := pyGetD vrd "target_audience" "general"
            primary_message := pyGetD vrd "core_message" "Key message"
            tone := tone_str
            style := "modern_realistic"
            created_at := now }
        if mode == "hitl" || mode == "yolo" then
          Except.ok
            { script_id := "script_" ++ now
              vrd_ref := video_type
              mode := mode
              metadata := metadata
              struct := struct
              beats := beats
              total_beat_count := beats.length
              narrative_summary :=
                video_type ++ " video following 8-part structure with "
                  ++ toString beats.length ++ " beats" }
        else .error "ValidationError: Script.mode"

/-- The validation report returned by `validate_alt_beats_timing`. -/
structure ValidationResult where
  valid : Bool
  total_duration : Int
  target_duration : Int
  difference : Int
  issues : List String
deriving DecidableEq

/-- The gap-check loop of `validate_alt_beats_timing` (lines 300-304):
`for i in range(len(beats) - 1)`, comparing formatted timecode strings and
reporting `f'Gap between beat {i+1} and {i+2}'`.  `i` is the 0-based index
of the first beat of the pair. -/
def gapIssues (i : Nat) : List ALTBeat → List String
  | [] => []
  | [_] => []
  | a :: b :: rest =>
    (if a.timecode_end ≠ b.timecode_start
     then ["Gap between beat " ++ toString (i + 1) ++ " and " ++ toString (i + 2)]
     else [])
    ++ gapIssues (i + 1) (b :: rest)

/-- `validate_alt_beats_timing` (tools/alt_beat_generator.py, lines
281-312). -/
def validateAltBeatsTiming (beats : List ALTBeat) (target_duration : Int) :
    ValidationResult :=
  let total_duration := (beats.map (fun b => b.duration_seconds)).sum
  let tolerance : Int := 5
  let issues :=
    (if tolerance < |total_duration - target_duration| then
      ["Total duration " ++ toString total_duration ++ "s outside tolerance of "
        ++ toString target_duration ++ "s ±" ++ toString tolerance ++ "s"]
     else [])
    ++ gapIssues 0 beats
  { valid := issues.isEmpty
    total_duration := total_duration
    target_duration := target_duration
    difference := total_duration - target_duration
    issues := issues }

/-! ## tools/shot_planner.py -/

/-- `SHOT_TYPE_MAP` (tools/shot_planner.py). -/
def SHOT_TYPE_MAP : List (String × String) :=
  [ ("hook", "closeup"),
    ("inciting_event", "medium"),
    ("first_plot_point", "medium_wide"),
    ("first_pinch_point", "medium_closeup"),
    ("midpoint", "wide"),
    ("second_pinch_point", "closeup"),
    ("third_plot_point", "medium"),
    ("climax", "medium_wide") ]

/-- `generate_shot_from_beat` (tools/shot_planner.py, lines 27-110). -/
def generateShotFromBeat (beat : ALTBeat) (shot_number shot_duration : Int)
    (_shot_index : Int) : Shot :=
  let position := beat.narrative_function.eight_part_position
  let shot_type := (alistGet SHOT_TYPE_MAP position).getD "medium"
  let camera_movement :=
    if position == "midpoint" || position == "climax" then
      (if shot_duration > 5 then "dolly" else "slow_push")
    else if shot_duration < 4 then "static" else "slow_dolly"
  let lighting_mood :=
    if position == "hook" || position == "climax" || position == "midpoint"
    then "bright" else "neutral"
  let focal_point :=
    if position == "hook" || position == "climax" then "center"
    else if shot_number % 2 == 0 then "center_right" else "center_left"
  let dof :=
    if shot_type == "closeup" || shot_type == "medium_closeup"
        || shot_type == "extreme_closeup"
    then "shallow" else "deep"
  { shot_id := "shot_" ++ fmt03 shot_number
    beat_ref := beat.beat_id
    shot_number := shot_number
    shot_type := shot_type
    subject := underscoreToSpace position ++ " subject"
    camera_angle := "eye_level"
    camera_movement := camera_movement
    duration_seconds := shot_duration
    frame_rate := 24
    resolution := "1080p"
    composition :=
      { rule_of_thirds := true
        focal_point := focal_point
        depth_of_field := dof }
    lighting :=
      { time_of_day := "day"
        mood := lighting_mood
        key_light := "soft_front_right"
        practical_lights := if lighting_mood == "bright" then ["background_accent"] else [] }
    set_requirements :=
      { location_type := "studio"
        props := []
        set_dressing := "minimal_modern" }
    technical_complexity :=
      { complexity_score := if position == "midpoint" || position == "climax" then 7 else 5
        requires_motion := shot_duration > 5
        requires_vfx := beat.production_metadata.requires_vfx
        requires_compositing := false
        estimated_generation_time_seconds := 45 + shot_duration * 2 }
    storyboard_frame :=
      { description :=
          pyTitle (underscoreToSpace shot_type) ++ " shot for " ++ position ++ " beat"
        reference_image_prompt :=
          shot_type ++ " shot, " ++ beat.visual_requirements.lighting
            ++ ", professional cinematography, "
            ++ beat.emotional_context.audience_emotion ++ " mood, "
            ++ beat.visual_requirements.visual_keywords.headD "" ++ " theme"
        thumbnail_url := none } }

/-- The shot count of `generate_shot_list`:
`shots_needed = max(1, round(duration / 6))`.  `duration / 6` is a tie
(n + 1/2) exactly when `duration ≡ 3 (mod 6)`, in which case the IEEE
double quotient is exactly the tie value, so the rational round-half-even
embedding is faithful. -/
def shotsNeeded (duration : Int) : Int :=
  max 1 (pyRoundHalfEven ((duration : ℚ) / 6))

/-- The duration of the shot at 0-based index `idx` among the
`shots_needed` shots of one beat: each shot gets `duration //
shots_needed` and the last shot instead absorbs the remainder
(`duration - shot_duration * (shots_needed - 1)`). -/
def shotDurationAt (duration n : Int) (idx : Nat) : Int :=
  let q := Int.fdiv duration n
  if (idx : Int) = n - 1 then duration - q * (n - 1) else q

/-- The per-beat inner loop of `generate_shot_list` (lines 135-150),
threading the global 1-based `shot_number` counter. -/
def shotsLoop (beats : List ALTBeat) (shot_number : Int) : List Shot :=
  match beats with
  | [] => []
  | beat :: rest =>
    let duration := beat.duration_seconds
    let n := shotsNeeded duration
    ((List.range n.toNat).map (fun (idx : Nat) =>
        generateShotFromBeat beat (shot_number + (idx : Int))
          (shotDurationAt duration n idx) (idx : Int)))
      ++ shotsLoop rest (shot_number + n.toNat)

/-- `generate_shot_list` (tools/shot_planner.py, lines 113-177). -/
def generateShotList (alt_beats : List ALTBeat) (mode : String) (now : String) :
    ShotList :=
  let shots := shotsLoop alt_beats 1
  let unique_locations :=
    ((shots.map (fun s => s.set_requirements.location_type)).dedup).length
  let unique_shot_types := ((shots.map (fun s => s.shot_type)).dedup).length
  let vfx_shots := (shots.filter (fun s => s.technical_complexity.requires_vfx)).length
  let total_time_minutes : ℚ :=
    ((shots.map (fun s => s.technical_complexity.estimated_generation_time_seconds)).sum : Int)
      / 60
  { shot_list_id := "shotlist_" ++ now
    script_ref := "script_ref"
    mode := mode
    total_shots := shots.length
    total_scenes := alt_beats.length
    shots := shots
    asset_summary :=
      { total_unique_locations := unique_locations
        total_unique_shot_types := unique_shot_types
        total_character_shots := shots.length
        vfx_shots := vfx_shots
        requires_custom_models := false
        estimated_total_time_minutes := pyRound1 total_time_minutes }
    created_at := now }

/-! ## tools/clarifying_questions.py -/

/-- One question descriptor built by `ask_clarifying_questions`.  The
Python dict keys 'type' and 'default' become `type` and `defaultValue`. -/
structure Question where
  question : String
  key : String
  type : String
  options : List String := []
  priority : String
  defaultValue : Option String := none
  hint : Option String := none
  optional : Bool := false
deriving DecidableEq

/-- `priority_order.get(q['priority'], 3)` (line 113). -/
def priorityOrder (p : String) : Nat :=
  if p == "high" then 0 else if p == "medium" then 1 else if p == "low" then 2 else 3

/-- `questions.sort(key=lambda q: priority_order.get(q['priority'], 3))`:
Python list.sort is stable, and the key takes only the values 0..3, so the
sort is concatenation of the four priority buckets in original order. -/
def sortByPriority (qs : List Question) : List Question :=
  (qs.filter (fun q => priorityOrder q.priority == 0))
    ++ (qs.filter (fun q => priorityOrder q.priority == 1))
    ++ (qs.filter (fun q => priorityOrder q.priority == 2))
    ++ (qs.filter (fun q => priorityOrder q.priority == 3))

/-- The core-message question (priority 1). -/
def qCoreMessage : Question :=
  { question := "What is the ONE key message viewers should remember after watching?"
    key := "core_message"
    type := "text"
    priority := "high"
    hint := some "Example: \"Our platform makes video creation 10x faster\"" }

/-- The tone question (priority 2). -/
def qTone : Question :=
  { question := "What tone should the video have?"
    key := "tone"
    type := "choice"
    options := ["empowering", "urgent", "friendly", "dramatic", "playful", "professional"]
    priority := "high"
    defaultValue := some "professional" }

/-- The unconditional midpoint-emotion question (priority 3). -/
def qMidpointEmotion : Question :=
  { question := "What emotion should the viewer feel at the midpoint (50% mark)?"
    key := "midpoint_emotion"
    type := "choice"
    options := ["hopeful", "inspired", "curious", "confident", "relieved", "excited"]
    priority := "medium"
    defaultValue := some "hopeful"
    hint := some "This is the \"transformation moment\" where understanding clicks" }

/-- The unconditional act-2-emphasis question (priority 4). -/
def qAct2Emphasis : Question :=
  { question := "In Act 2, should we emphasize the problem or the solution more?"
    key := "act2_emphasis"
    type := "choice"
    options :=
      [ "50/50 - Equal balance",
        "60/40 problem - More pain points",
        "60/40 solution - More benefits",
        "70/30 problem - Heavy on challenges",
        "70/30 solution - Heavy on features" ]
    priority := "medium"
    defaultValue := some "50/50 - Equal balance"
    hint := some "Problem-heavy works for aware audiences; solution-heavy for unaware" }

/-- The unconditional visual-metaphors question (priority 5). -/
def qVisualMetaphors : Question :=
  { question := "Any specific visual metaphors, motifs, or recurring imagery to incorporate?"
    key := "visual_metaphors"
    type := "text"
    priority := "low"
    optional := true
    hint := some "Examples: \"journey\", \"transformation\", \"building blocks\", \"unlock\", etc." }

/-- The call-to-action question (priority 6). -/
def qCta : Question :=
  { question := "What specific action should viewers take after watching?"
    key := "cta"
    type := "choice"
    options :=
      [ "Visit website", "Start free trial", "Book a demo", "Download app",
        "Sign up", "Contact sales", "Learn more" ]
    priority := "high"
    hint := some "Be specific - vague CTAs reduce conversion" }

/-- `ask_clarifying_questions` (tools/clarifying_questions.py, lines 9-116). -/
def askClarifyingQuestions (vrd : Dict) (mode : String) : List Question :=
  if mode == "yolo" then []
  else
    let questions :=
      (if pyFalsyStr (pyGet vrd "core_message") then [qCoreMessage] else [])
        ++ (if pyFalsyStr (pyGet vrd "tone") then [qTone] else [])
        ++ [qMidpointEmotion, qAct2Emphasis, qVisualMetaphors]
        ++ (if pyFalsyStr (pyGet vrd "cta") then [qCta] else [])
    (sortByPriority questions).take 5

/-- `apply_clarifications_to_vrd` (tools/clarifying_questions.py, lines
119-132): copy then `dict.update`. -/
def applyClarificationsToVrd (vrd clarifications : Dict) : Dict :=
  pyUpdate vrd clarifications

/-! ## tools/tool_selector.py -/

/-- One tier entry of `SOTA_TOOL_RECOMMENDATIONS`. -/
structure ToolRec where
  tool : String
  score : ℚ
  cost_per_second : ℚ
  reason : String
deriving DecidableEq

/-- `SOTA_TOOL_RECOMMENDATIONS` (tools/tool_selector.py, lines 17-138): a
dict from shot-type category to a dict from quality tier to a tool
recommendation. -/
def SOTA_TOOL_RECOMMENDATIONS : List (String × List (String × ToolRec)) :=
  [ ("wide",
     [ ("high_quality",
        { tool := "Google Veo 3", score := 97/10, cost_per_second := 8/100
          reason := "4K, physics realism, native audio" }),
       ("balanced",
        { tool := "Runway Gen-3 Alpha", score := 93/10, cost_per_second := 5/100
          reason := "Industry standard, reliable" }),
       ("budget",
        { tool := "Luma Dream Machine 1.6", score := 91/10, cost_per_second := 8/100
          reason := "Fast generation, cinematic" }) ]),
    ("extreme_wide",
     [ ("high_quality",
        { tool := "OpenAI Sora", score := 96/10, cost_per_second := 10/100
          reason := "Long-form, scene continuity" }),
       ("balanced",
        { tool := "Google Veo 3", score := 97/10, cost_per_second := 8/100
          reason := "Epic scale, physics" }),
       ("budget",
        { tool := "Kling AI 1.5/2.1", score := 92/10, cost_per_second := 6/100
          reason := "Good quality, affordable" }) ]),
    ("closeup",
     [ ("high_quality",
        { tool := "Kling AI 1.5/2.1", score := 92/10, cost_per_second := 6/100
          reason := "Best lip-sync, facial realism" }),
       ("balanced",
        { tool := "Runway Gen-3 Alpha", score := 93/10, cost_per_second := 5/100
          reason := "Character consistency" }),
       ("budget",
        { tool := "Haiper AI", score := 86/10, cost_per_second := 5/100
          reason := "Fast, cost-effective" }) ]),
    ("medium_closeup",
     [ ("high_quality",
        { tool := "Kling AI 1.5/2.1", score := 92/10, cost_per_second := 6/100
          reason := "Photorealism, detail" }),
       ("balanced",
        { tool := "Runway Gen-3 Alpha", score := 93/10, cost_per_second := 5/100
          reason := "Reliable quality" }),
       ("budget",
        { tool := "Haiper AI", score := 86/10, cost_per_second := 5/100
          reason := "Quick generation" }) ]),
    ("medium",
     [ ("high_quality",
        { tool := "Runway Gen-3 Alpha", score := 93/10, cost_per_second := 5/100
          reason := "Best all-around" }),
       ("balanced",
        { tool := "Luma Dream Machine 1.6", score := 91/10, cost_per_second := 8/100
          reason := "Fast, reliable" }),
       ("budget",
        { tool := "Haiper AI", score := 86/10, cost_per_second := 5/100
          reason := "Cost-effective" }) ]),
    ("medium_wide",
     [ ("high_quality",
        { tool := "Runway Gen-3 Alpha", score := 93/10, cost_per_second := 5/100
          reason := "Scene composition" }),
       ("balanced",
        { tool := "Luma Dream Machine 1.6", score := 91/10, cost_per_second := 8/100
          reason := "Good balance" }),
       ("budget",
        { tool := "Haiper AI", score := 86/10, cost_per_second := 5/100
          reason := "Affordable" }) ]) ]

/-- `VFX_TOOL` (tools/tool_selector.py, lines 142-147). -/
structure VfxTool where
  tool : String
  cost_per_second : ℚ
  fixed_cost : ℚ
  reason : String
deriving DecidableEq

/-- `VFX_TOOL` constant. -/
def VFX_TOOL : VfxTool :=
  { tool := "Runway Gen-3 Alpha"
    cost_per_second := 5/100
    fixed_cost := 15/100
    reason := "Best VFX and stylization" }

/-- Placeholder for the unreachable miss of
`SOTA_TOOL_RECOMMENDATIONS[shot_category]['balanced']`: every category
table contains the 'balanced' tier, so this value is never produced. -/
def dummyToolRec : ToolRec :=
  { tool := "", score := 0, cost_per_second := 0, reason := "" }

/-- The recommendation chosen by `select_optimal_tool_for_shot` for a shot
type and quality tier:
`shot_category = shot_type if shot_type in SOTA_TOOL_RECOMMENDATIONS else 'medium'`
followed by
`SOTA_TOOL_RECOMMENDATIONS[shot_category].get(quality_priority, ...['balanced'])`. -/
def selectedToolRec (shot_type quality_priority : String) : ToolRec :=
  let shot_category :=
    if (alistGet SOTA_TOOL_RECOMMENDATIONS shot_type).isSome then shot_type else "medium"
  let catTable := (alistGet SOTA_TOOL_RECOMMENDATIONS shot_category).getD []
  (alistGet catTable quality_priority).getD
    ((alistGet catTable "balanced").getD dummyToolRec)

/-- The fixed VFX step appended when the shot requires VFX
(tools/tool_selector.py, lines 233-241). -/
def vfxWorkflowStep : WorkflowStep :=
  { step := 2
    tool := VFX_TOOL.tool
    purpose := "Add VFX and effects"
    workflow_type := "video_to_video"
    duration_seconds := 0
    estimated_time_seconds := 30
    cost_usd := VFX_TOOL.fixed_cost }

/-- `select_optimal_tool_for_shot` (tools/tool_selector.py, lines
177-255). -/
def selectOptimalToolForShot (shot : Shot) (constraints : Option Dict) : Workflow :=
  let constraints' := if pyTruthyDict constraints then constraints.getD [] else []
  let quality_priority := pyGetD constraints' "quality_priority" "balanced"
  let shot_type := shot.shot_type
  let duration := shot.duration_seconds
  let requires_vfx := shot.technical_complexity.requires_vfx
  let tool_rec := selectedToolRec shot_type quality_priority
  let estimated_cost : ℚ := (duration : ℚ) * tool_rec.cost_per_second
  let estimated_time : Int := 45 + duration * 2
  let workflow_type := if duration > 5 then "text_to_video" else "image_to_video"
  let step1 : WorkflowStep :=
    { step := 1
      tool := tool_rec.tool
      purpose := "Generate " ++ shot_type ++ " shot"
      workflow_type := workflow_type
      duration_seconds := duration
      estimated_time_seconds := estimated_time
      cost_usd := pyRound2 estimated_cost }
  let steps := if requires_vfx then [step1, vfxWorkflowStep] else [step1]
  let total_cost := if requires_vfx then estimated_cost + VFX_TOOL.fixed_cost else estimated_cost
  let total_time := if requires_vfx then estimated_time + 30 else estimated_time
  { workflow_id := "workflow_" ++ shot.shot_id
    workflow_name :=
      pyTitle (underscoreToSpace shot_type) ++ " - " ++ pyTitle quality_priority ++ " Quality"
    steps := steps
    total_cost := pyRound2 total_cost
    total_time_seconds := total_time
    quality_score := tool_rec.score }

/-- `tools_used[tool_name] = tools_used.get(tool_name, 0.0) + step.cost_usd`
(line 309): dict update keeps an existing key in place. -/
def toolsUsedAdd (m : List (String × ℚ)) (k : String) (v : ℚ) : List (String × ℚ) :=
  match m with
  | [] => [(k, v)]
  | (k0, v0) :: rest =>
    if k0 = k then (k0, v0 + v) :: rest else (k0, v0) :: toolsUsedAdd rest k v

/-- The per-shot loop of `generate_production_plan` (lines 281-309),
threading the accumulators `(shot_plans, total_cost, total_time,
tools_used)` exactly as the Python `for` loop does. -/
def planLoop (shots : List Shot) (constraints : Dict) (plans : List ShotPlan)
    (cost : ℚ) (time : Int) (tools : List (String × ℚ)) :
    List ShotPlan × ℚ × Int × List (String × ℚ) :=
  match shots with
  | [] => (plans, cost, time, tools)
  | shot :: rest =>
    let recommended := selectOptimalToolForShot shot (some constraints)
    let budget_constraints := pyUpdate constraints [("quality_priority", "budget")]
    let alternative := selectOptimalToolForShot shot (some budget_constraints)
    let shot_plan : ShotPlan :=
      { shot_id := shot.shot_id
        shot_description := shot.shot_type ++ " - " ++ toString shot.duration_seconds ++ "s"
        recommended_workflow := recommended
        alternative_workflows :=
          if alternative.total_cost ≠ recommended.total_cost then [alternative] else []
        production_notes :=
          [ "Shot complexity: " ++ toString shot.technical_complexity.complexity_score ++ "/10",
            "Estimated generation: " ++ toString recommended.total_time_seconds ++ "s",
            "Tool: " ++ (recommended.steps.headD vfxWorkflowStep).tool ] }
    planLoop rest constraints (plans ++ [shot_plan]) (cost + recommended.total_cost)
      (time + recommended.total_time_seconds)
      (recommended.steps.foldl (fun m s => toolsUsedAdd m s.tool s.cost_usd) tools)

/-- `sorted(tools_used.items(), key=lambda x: x[1], reverse=True)`: Python
sorted is stable and reverse=True keeps the original order among equal
values, which is merge-sort with the by-value greater-or-equal order. -/
def sortedByValueDesc (l : List (String × ℚ)) : List (String × ℚ) :=
  l.mergeSort (fun a b => decide (b.2 ≤ a.2))

/-- `generate_production_plan` (tools/tool_selector.py, lines 258-354). -/
def generateProductionPlan (shot_list : ShotList) (constraints : Option Dict)
    (mode : String) (now : String) : ProductionPlan :=
  let constraints' :=
    if pyTruthyDict constraints then constraints.getD []
    else [("quality_priority", "balanced")]
  let acc := planLoop shot_list.shots constraints' [] 0 0 []
  let shot_plans := acc.1
  let total_cost := acc.2.1
  let total_time := acc.2.2.1
  let tools_used := acc.2.2.2
  let primary_tools := (sortedByValueDesc tools_used).take 3
  let workflow_types : List (String × Int) :=
    [ ("text_to_video",
       ((shot_plans.filter (fun p =>
          (p.recommended_workflow.steps.headD vfxWorkflowStep).workflow_type
            == "text_to_video")).length : Int)),
      ("image_to_video",
       ((shot_plans.filter (fun p =>
          (p.recommended_workflow.steps.headD vfxWorkflowStep).workflow_type
            == "image_to_video")).length : Int)),
      ("video_to_video",
       ((shot_plans.map (fun p =>
          (p.recommended_workflow.steps.filter (fun s =>
            s.workflow_type == "video_to_video")).length)).sum : Int)) ]
  let max_shot_time : Int :=
    ((shot_plans.map (fun s => s.recommended_workflow.total_time_seconds)).max?).getD 0
  { production_plan_id := "plan_" ++ now
    shot_list_ref := shot_list.shot_list_id
    mode := mode
    total_estimated_cost_usd := pyRound2 total_cost
    total_estimated_time_minutes := pyRound1 ((total_time : ℚ) / 60)
    shot_plans := shot_plans
    workflow_summary :=
      { total_unique_tools := tools_used.length
        primary_tools := primary_tools
        workflow_types := workflow_types }
    cost_breakdown := { by_tool := tools_used }
    timeline_estimate :=
      { parallel_generation := true
        sequential_time_minutes := pyRound1 ((total_time : ℚ) / 60)
        parallel_time_minutes := pyRound1 ((max_shot_time : ℚ) / 60)
        post_processing_minutes := 30 } }

/-! ## workflows/production_orchestrator.py

The orchestrator methods return heterogeneous result dicts; each shape is
embedded as a constructor carrying the dict's payload fields.  Methods
that can raise (`generate_script` via the `int(...)` parse inside
`generate_alt_beats`, `execute_full_pipeline` via attribute access on a
`None` aggregate) return `Except String`. -/

/-- `ProductionOrchestrator` instance state. -/
structure Orchestrator where
  mode : String
  require_approval : Bool
  vrd : Option Dict
  clarifications : Dict
  script : Option Script
  shot_list : Option ShotList
  production_plan : Option ProductionPlan
  current_step : String
  steps_completed : List String
deriving DecidableEq

/-- `ProductionOrchestrator.__init__` (lines 27-46). -/
def initOrchestrator (mode : String) : Orchestrator :=
  { mode := mode
    require_approval := mode == "hitl"
    vrd := none
    clarifications := []
    script := none
    shot_list := none
    production_plan := none
    current_step := "vrd_input"
    steps_completed := [] }

/-- The result dict of `set_vrd`: either
`{'status': 'needs_clarification', 'questions': ..., 'next_action': ...}`
or `{'status': 'ready_for_script', 'next_action': ...}`. -/
inductive SetVrdResult
  | needsClarification (questions : List Question) (next_action : String)
  | readyForScript (next_action : String)
deriving DecidableEq

/-- The `status` field of a `set_vrd` result. -/
def SetVrdResult.status : SetVrdResult → String
  | .needsClarification _ _ => "needs_clarification"
  | .readyForScript _ => "ready_for_script"

/-- `ProductionOrchestrator.set_vrd` (lines 48-76). -/
def setVrd (o : Orchestrator) (vrd : Dict) : SetVrdResult × Orchestrator :=
  let o1 := { o with
    vrd := some vrd
    current_step := "vrd_received"
    steps_completed := o.steps_completed ++ ["vrd_input"] }
  if o1.mode == "hitl" then
    let questions := askClarifyingQuestions vrd o1.mode
    if questions.isEmpty then (.readyForScript "generate_script", o1)
    else
      (.needsClarification questions "provide_clarifications",
       { o1 with current_step := "awaiting_clarifications" })
  else (.readyForScript "generate_script", o1)

/-- `ProductionOrchestrator.provide_clarifications` (lines 78-96). -/
def provideClarifications (o : Orchestrator) (clarifications : Dict) :
    SetVrdResult × Orchestrator :=
  (.readyForScript "generate_script",
   { o with
     clarifications := clarifications
     vrd := some (applyClarificationsToVrd (o.vrd.getD []) clarifications)
     current_step := "clarifications_received"
     steps_completed := o.steps_completed ++ ["clarifications"] })

/-- The result dict of a pipeline stage method: the fixed-message error
shape `{'status': 'error', 'message': ...}`, or the stage payload with its
`next_action` and `approval_required` fields. -/
inductive StageResult
  | error (message : String)
  | scriptGenerated (script : Script) (validation : ValidationResult)
      (beat_count : Int) (duration : Int) (next_action : String)
      (approval_required : Bool)
  | shotsGenerated (shot_list : ShotList) (total_shots : Int)
      (asset_summary : AssetSummary) (next_action : String)
      (approval_required : Bool)
  | planGenerated (production_plan : ProductionPlan) (total_cost : ℚ)
      (total_time : ℚ) (workflow_summary : WorkflowSummary)
      (next_action : String) (approval_required : Bool)
deriving DecidableEq

/-- The `status` field of a stage result dict. -/
def StageResult.status : StageResult → String
  | .error _ => "error"
  | .scriptGenerated .. => "script_generated"
  | .shotsGenerated .. => "shots_generated"
  | .planGenerated .. => "plan_generated"

/-- `result.get('approval_required')`: the error dict lacks the key, so
the lookup yields Python `None` (falsy). -/
def StageResult.approvalRequired : StageResult → Option Bool
  | .error _ => none
  | .scriptGenerated _ _ _ _ _ ar => some ar
  | .shotsGenerated _ _ _ _ ar => some ar
  | .planGenerated _ _ _ _ _ ar => some ar

/-- `ProductionOrchestrator.generate_script` (lines 98-135).  `if not
self.vrd` is falsy both for `None` and for an empty dict. -/
def generateScript (o : Orchestrator) (now : String) :
    Except String (StageResult × Orchestrator) :=
  if !pyTruthyDict o.vrd then .ok (.error "VRD not set", o)
  else
    match generateAltBeats (o.vrd.getD []) (some o.clarifications) o.mode now with
    | .error e => .error e
    | .ok script =>
      let validation := validateAltBeatsTiming script.beats script.metadata.duration_seconds
      let o2 := { o with
        script := some script
        current_step := "script_generated"
        steps_completed := o.steps_completed ++ ["script_generation"] }
      let na_ar :=
        if o.mode == "hitl" then ("review_script_then_generate_shots", true)
        else ("generate_shots", false)
      .ok (.scriptGenerated script validation script.total_beat_count
            script.metadata.duration_seconds na_ar.1 na_ar.2, o2)

/-- `ProductionOrchestrator.generate_shots` (lines 137-167). -/
def generateShots (o : Orchestrator) (now : String) : StageResult × Orchestrator :=
  match o.script with
  | none => (.error "Script not generated", o)
  | some script =>
    let shot_list := generateShotList script.beats o.mode now
    let o2 := { o with
      shot_list := some shot_list
      current_step := "shots_generated"
      steps_completed := o.steps_completed ++ ["shot_generation"] }
    let na_ar :=
      if o.mode == "hitl" then ("review_shots_then_generate_plan", true)
      else ("generate_plan", false)
    (.shotsGenerated shot_list shot_list.total_shots shot_list.asset_summary
      na_ar.1 na_ar.2, o2)

/-- `ProductionOrchestrator.generate_plan` (lines 169-207). -/
def generatePlan (o : Orchestrator) (constraints : Option Dict) (now : String) :
    StageResult × Orchestrator :=
  match o.shot_list with
  | none => (.error "Shot list not generated", o)
  | some shot_list =>
    let production_plan := generateProductionPlan shot_list constraints o.mode now
    let o2 := { o with
      production_plan := some production_plan
      current_step := "plan_generated"
      steps_completed := o.steps_completed ++ ["plan_generation"] }
    let na_ar :=
      if o.mode == "hitl" then ("review_plan_then_execute", true)
      else ("execute_production", false)
    (.planGenerated production_plan production_plan.total_estimated_cost_usd
      production_plan.total_estimated_time_minutes production_plan.workflow_summary
      na_ar.1 na_ar.2, o2)

/-- The result of `execute_full_pipeline`: an early-returned `set_vrd` or
stage result dict, or the final
`{'status': 'pipeline_complete', ..., 'summary': {...}}` dict. -/
inductive PipelineResult
  | fromSetVrd (r : SetVrdResult)
  | fromStage (r : StageResult)
  | complete (mode : String) (steps_completed : List String) (script : Script)
      (shot_list : ShotList) (production_plan : ProductionPlan)
      (beats : Int) (shots : Int) (cost_usd : ℚ) (time_minutes : ℚ)
deriving DecidableEq

/-- The `status` field of an `execute_full_pipeline` result. -/
def PipelineResult.status : PipelineResult → String
  | .fromSetVrd r => r.status
  | .fromStage r => r.status
  | .complete .. => "pipeline_complete"

/-- `ProductionOrchestrator.execute_full_pipeline` (lines 209-254).  The
final summary dict reads `self.script.total_beat_count`,
`self.shot_list.total_shots` and
`self.production_plan.total_estimated_cost_usd`; if any of those is still
`None` (possible when an intermediate stage returned an error dict) the
attribute access raises, embedded as `Except.error`. -/
def executeFullPipeline (o : Orchestrator) (vrd : Dict) (constraints : Option Dict)
    (now : String) : Except String (PipelineResult × Orchestrator) :=
  let vr := setVrd o vrd
  if vr.1.status == "needs_clarification" && vr.2.mode == "hitl" then
    .ok (.fromSetVrd vr.1, vr.2)
  else
    match generateScript vr.2 now with
    | .error e => .error e
    | .ok sr =>
      if (sr.1.approvalRequired.getD false) && sr.2.mode == "hitl" then
        .ok (.fromStage sr.1, sr.2)
      else
        let shr := generateShots sr.2 now
        if (shr.1.approvalRequired.getD false) && shr.2.mode == "hitl" then
          .ok (.fromStage shr.1, shr.2)
        else
          let pr := generatePlan shr.2 constraints now
          match pr.2.script, pr.2.shot_list, pr.2.production_plan with
          | some s, some sl, some pp =>
            .ok (.complete pr.2.mode pr.2.steps_completed s sl pp
                  s.total_beat_count sl.total_shots pp.total_estimated_cost_usd
                  pp.total_estimated_time_minutes, pr.2)
          | _, _, _ =>
            .error "AttributeError: NoneType object has no attribute"

/-! ## Timing Allocator properties (claims C1, C7) -/

/-- The eight `(start, end)` spans of the allocator, in source order. -/
def timingSpans (d : Int) : List (Int × Int) :=
  (calculateEightPartTiming d).map Prod.snd

/-- Two half-open integer spans `[s, e)` share a point (quantifier-free
form; see `spansOverlap_iff_exists`). -/
def spansOverlap (a b : Int × Int) : Prop :=
  max a.1 b.1 < min a.2 b.2

/-- The allocator soundness property claim C1 asserts at duration `d`: the
eight spans are pairwise non-overlapping, their boundaries are
non-decreasing in source order, every instant of `[0, d)` lies in some
span, and the hook span ends at 3 or later.  (Zero-length spans overlap
nothing and cover nothing, so no special-casing is needed.) -/
def eightPartSound (d : Int) : Prop :=
  (timingSpans d).Pairwise (fun a b => ¬ spansOverlap a b)
  ∧ (timingSpans d).Chain' (fun a b => a.2 ≤ b.1)
  ∧ (∀ p ∈ timingSpans d, p.1 ≤ p.2)
  ∧ (∀ x : Int, 0 ≤ x → x < d → ∃ p ∈ timingSpans d, p.1 ≤ x ∧ x < p.2)
  ∧ 3 ≤ ((timingSpans d).headD (0, 0)).2

/-- The beats the pipeline itself produces for a 1-second RD: the hook
over `[0, 3)` (floored) and the climax over `[0, 1)` — every other
segment has zero span and is skipped, and both surviving templates use
valid camera movements, so `generate_alt_beats` really returns this
script.  The two timecodes are non-contiguous and the durations total 4. -/
def c3Beats : List ALTBeat :=
  match generateAltBeats [("estimated_duration", "1s")] none "yolo" "t0" with
  | .ok s => s.beats
  | .error _ => []

/-- The per-beat shot-duration list the spec describes: `shots_needed - 1`
shots of `duration // shots_needed` followed by a final shot absorbing the
integer-division remainder. -/
def beatShotDurationsSpec (d : Int) : List Int :=
  let n := shotsNeeded d
  List.replicate (n.toNat - 1) (Int.fdiv d n) ++ [d - Int.fdiv d n * (n - 1)]

/-- A non-empty clarifications dict lacking the 'tone' key. -/
def c6Clar : Dict := [("style", "fun")]

/-- An RD carrying a 'tone' value. -/
def c6Vrd : Dict := [("tone", "casual")]

/-- A rational that is an exact number of cents (every cost handled by the
tool selector is one, so Python's `round(x, 2)` leaves it unchanged). -/
def IsCentRat (q : ℚ) : Prop := ∃ k : Int, q = (k : ℚ) / 100

/-- A well-formed requirements document lacking `core_message` and
`tone` (concrete instance for the pipeline-gating claim). -/
def c2Vrd : Dict :=
  [("video_type", "product_demo"), ("estimated_duration", "60s"),
   ("target_audience", "B2B")]

lemma spansOverlap_iff_exists (a b : Int × Int) :
    spansOverlap a b ↔ ∃ x : Int, (a.1 ≤ x ∧ x < a.2) ∧ (b.1 ≤ x ∧ x < b.2) := by
  unfold spansOverlap
  constructor
  · intro h
    exact ⟨max a.1 b.1, by omega⟩
  · rintro ⟨x, hx⟩
    omega

lemma intMulPct_eq_ediv (d n : Int) (hd : 0 ≤ d) (hn : 0 ≤ n) :
    intMulPct d n = d * n / 100 :=
  Int.tdiv_eq_ediv (mul_nonneg hd hn) (by norm_num)

lemma intMulPct_nonpos (d n : Int) (hd : d ≤ 0) (hn : 0 ≤ n) :
    intMulPct d n ≤ 0 := by
  unfold intMulPct
  have h1 : (0 : Int) ≤ (-(d * n)).tdiv 100 :=
    Int.tdiv_nonneg (by nlinarith) (by norm_num)
  rw [Int.neg_tdiv] at h1
  omega

/-- C1 (counterexample): at total duration 20 — inside the claimed range
D ≥ 20 — the hook span is floored to `(0, 3)` while the inciting-event
span is `(1, 2)`, so the two spans overlap (both of positive length) and
the boundary sequence is not non-decreasing.  The claimed property fails
at D = 20. -/
theorem c1_counterexample : (20 : Int) ≥ 20 ∧ ¬ eightPartSound 20 := by
  refine ⟨by norm_num, ?_⟩
  intro h
  have hts : timingSpans 20 =
      [(0, 3), (1, 2), (2, 5), (5, 7), (7, 10), (10, 12), (12, 15), (15, 20)] := by
    decide
  have h1 := h.1
  rw [hts] at h1
  have h01 := (List.pairwise_cons.mp h1).1 (1, 2) (by simp)
  exact h01 (by simp [spansOverlap])

/-- C1 (amended): for every total duration D ≥ 60 — equivalently, whenever
the 5% hook boundary is at least the 3-second floor — the eight spans
returned by `calculate_eight_part_timing` are pairwise non-overlapping,
have non-decreasing boundaries, cover `[0, D)`, and the hook span ends at
3 or later.  (For 20 ≤ D < 60 the hook floor overlaps the following
spans, see `c1_counterexample`.) -/
theorem c1_eight_part_timing_sound (d : Int) (hd : 60 ≤ d) : eightPartSound d := by
  have h0 : (0 : Int) ≤ d := by omega
  have e5 := intMulPct_eq_ediv d 5 h0 (by norm_num)
  have e12 := intMulPct_eq_ediv d 12 h0 (by norm_num)
  have e25 := intMulPct_eq_ediv d 25 h0 (by norm_num)
  have e37 := intMulPct_eq_ediv d 37 h0 (by norm_num)
  have e50 := intMulPct_eq_ediv d 50 h0 (by norm_num)
  have e62 := intMulPct_eq_ediv d 62 h0 (by norm_num)
  have e75 := intMulPct_eq_ediv d 75 h0 (by norm_num)
  have h3 : 3 ≤ d * 5 / 100 := (Int.le_ediv_iff_mul_le (by norm_num)).2 (by omega)
  have hm1 : d * 5 / 100 ≤ d * 12 / 100 := Int.ediv_le_ediv (by norm_num) (by omega)
  have hm2 : d * 12 / 100 ≤ d * 25 / 100 := Int.ediv_le_ediv (by norm_num) (by omega)
  have hm3 : d * 25 / 100 ≤ d * 37 / 100 := Int.ediv_le_ediv (by norm_num) (by omega)
  have hm4 : d * 37 / 100 ≤ d * 50 / 100 := Int.ediv_le_ediv (by norm_num) (by omega)
  have hm5 : d * 50 / 100 ≤ d * 62 / 100 := Int.ediv_le_ediv (by norm_num) (by omega)
  have hm6 : d * 62 / 100 ≤ d * 75 / 100 := Int.ediv_le_ediv (by norm_num) (by omega)
  have hm7 : d * 75 / 100 ≤ d := by
    have := Int.ediv_le_ediv (c := 100) (by norm_num) (show d * 75 ≤ d * 100 by omega)
    rwa [Int.mul_ediv_cancel d (by norm_num)] at this
  have hmax : max 3 (d * 5 / 100) = d * 5 / 100 := by omega
  simp only [eightPartSound, timingSpans, calculateEightPartTiming, List.map_cons,
    List.map_nil, e5, e12, e25, e37, e50, e62, e75, hmax]
  refine ⟨?_, ?_, ?_, ?_, ?_⟩
  · simp only [List.pairwise_cons, List.mem_cons, List.mem_singleton,
      List.not_mem_nil, spansOverlap]
    refine ⟨?_, ?_, ?_, ?_, ?_, ?_, ?_, by simp⟩ <;>
      · intro p hp
        rcases hp with h | h | h | h | h | h | h | h <;> first
          | (subst h; simp only; omega)
          | (exact absurd h (by simp))
  · simp [List.chain'_cons]
  · intro p hp
    simp only [List.mem_cons, List.not_mem_nil, or_false] at hp
    rcases hp with h | h | h | h | h | h | h | h <;> (subst h; simp only; omega)
  · intro x hx0 hxd
    by_cases c1 : x < d * 5 / 100
    · exact ⟨(0, d * 5 / 100), by simp, by omega⟩
    by_cases c2 : x < d * 12 / 100
    · exact ⟨(d * 5 / 100, d * 12 / 100), by simp, by omega⟩
    by_cases c3 : x < d * 25 / 100
    · exact ⟨(d * 12 / 100, d * 25 / 100), by simp, by omega⟩
    by_cases c4 : x < d * 37 / 100
    · exact ⟨(d * 25 / 100, d * 37 / 100), by simp, by omega⟩
    by_cases c5 : x < d * 50 / 100
    · exact ⟨(d * 37 / 100, d * 50 / 100), by simp, by omega⟩
    by_cases c6 : x < d * 62 / 100
    · exact ⟨(d * 50 / 100, d * 62 / 100), by simp, by omega⟩
    by_cases c7 : x < d * 75 / 100
    · exact ⟨(d * 62 / 100, d * 75 / 100), by simp, by omega⟩
    · exact ⟨(d * 75 / 100, d), by simp, by omega⟩
  · simp only [List.headD_cons]
    omega

/-- C1 (witness): the amended soundness property holds at the concrete
duration 60. -/
theorem c1_eight_part_timing_sound_witness :
    (60 : Int) ≥ 60 ∧ eightPartSound 60 :=
  ⟨by norm_num, c1_eight_part_timing_sound 60 (by norm_num)⟩

/-- C7 (counterexample): `calculate_eight_part_timing` does not reject
the non-positive duration 0 — it returns the eight spans, with the hook
floored to `(0, 3)`; and `generate_alt_beats` on an RD with no
`estimated_duration` does not fail fast with a duration diagnostic — it
silently substitutes the '60s' default, builds beats from the defaulted
allocation, and the failure that does occur is the unrelated pydantic
`ValidationError` on the inciting_event template's `slow_push` camera
movement. -/
theorem c7_counterexample :
    calculateEightPartTiming 0 =
      [ ("hook", 0, 3), ("inciting_event", 0, 0), ("first_plot_point", 0, 0),
        ("first_pinch_point", 0, 0), ("midpoint", 0, 0), ("second_pinch_point", 0, 0),
        ("third_plot_point", 0, 0), ("climax", 0, 0) ]
    ∧ generateAltBeats [("video_type", "demo")] none "yolo" "t0"
        = .error "ValidationError: VisualRequirements.camera_movement" := by
  constructor
  · decide
  · rfl

/-- C7 (amended): the timing allocator performs no input validation — for
every non-positive duration it still returns all eight spans, the hook
floored to `(0, 3)`; and `generate_alt_beats` does not validate the
presence of `estimated_duration`: a missing value is silently defaulted
to '60s' and the defaulted allocation is used to build beats, after which
the call fails not with a duration diagnostic but with the pydantic
`ValidationError` raised by the inciting_event beat's `slow_push` camera
movement; only a present non-numeric value yields a duration diagnostic
(the `ValueError` from `int()`). -/
theorem c7_no_input_validation (d : Int) (hd : d ≤ 0) :
    alistGet (calculateEightPartTiming d) "hook" = some (0, 3)
    ∧ (calculateEightPartTiming d).length = 8
    ∧ generateAltBeats [("video_type", "demo")] none "yolo" "t0"
        = .error "ValidationError: VisualRequirements.camera_movement"
    ∧ generateAltBeats [("estimated_duration", "soon")] none "yolo" "t0"
        = .error "ValueError: invalid literal for int: soon" := by
  refine ⟨?_, ?_, rfl, rfl⟩
  · have hnp := intMulPct_nonpos d 5 hd (by norm_num)
    have hmax : max 3 (intMulPct d 5) = 3 := by omega
    simp [alistGet, calculateEightPartTiming, hmax]
  · simp [calculateEightPartTiming]

/-- C7 (witness): the amended behavior at the concrete duration 0. -/
theorem c7_no_input_validation_witness :
    (0 : Int) ≤ 0 ∧ alistGet (calculateEightPartTiming 0) "hook" = some (0, 3) :=
  ⟨by norm_num, (c7_no_input_validation 0 (by norm_num)).1⟩

/-! ## Timing Validator properties (claim C3) -/

lemma gapIssues_eq_nil_iff (i : Nat) (beats : List ALTBeat) :
    gapIssues i beats = []
      ↔ beats.Chain' (fun a b => a.timecode_end = b.timecode_start) := by
  induction beats generalizing i with
  | nil => simp [gapIssues]
  | cons a rest ih =>
    cases rest with
    | nil => simp [gapIssues]
    | cons b rest2 =>
      by_cases h : a.timecode_end = b.timecode_start
      · simp [gapIssues, h, ih (i + 1), List.chain'_cons]
      · simp [gapIssues, h, List.chain'_cons]

/-- C3 (counterexample): on the script the pipeline generates for a
1-second RD — hook `[0, 3)` then climax `[0, 1)` — the beat durations
total 4, so against target 1 the difference is 3, well inside the ±5
tolerance; yet the non-contiguous timecodes produce a gap issue and
`validate_alt_beats_timing` reports `valid = False`.  The gap alone makes
the report invalid, refuting "valid iff |total - target| <= 5" and "gaps
are not failures". -/
theorem c3_counterexample :
    (generateAltBeats [("estimated_duration", "1s")] none "yolo" "t0").map
        (fun s => s.beats) = .ok c3Beats
    ∧ (validateAltBeatsTiming c3Beats 1).valid = false
    ∧ (validateAltBeatsTiming c3Beats 1).total_duration = 4
    ∧ (validateAltBeatsTiming c3Beats 1).difference = 3
    ∧ (validateAltBeatsTiming c3Beats 1).issues = ["Gap between beat 1 and 2"] :=
  ⟨rfl, rfl, rfl, rfl, rfl⟩

/-- C3 (amended): `validate_alt_beats_timing` is total (never raises) and
for every beat list and target returns a report whose `total_duration` is
the sum of beat durations, whose `difference` equals total minus target,
and whose `valid` flag is true iff *both* |total - target| <= 5 *and*
every adjacent pair of beats has contiguous timecode strings — a gap
issue does make the report invalid. -/
theorem c3_validator_report (beats : List ALTBeat) (target : Int) :
    (validateAltBeatsTiming beats target).total_duration
        = (beats.map (fun b => b.duration_seconds)).sum
    ∧ (validateAltBeatsTiming beats target).difference
        = (beats.map (fun b => b.duration_seconds)).sum - target
    ∧ ((validateAltBeatsTiming beats target).valid = true
        ↔ (|(beats.map (fun b => b.duration_seconds)).sum - target| ≤ 5
            ∧ beats.Chain' (fun a b => a.timecode_end = b.timecode_start))) := by
  refine ⟨rfl, rfl, ?_⟩
  unfold validateAltBeatsTiming
  simp only [List.isEmpty_eq_true, List.append_eq_nil]
  constructor
  · intro h
    rcases h with ⟨hdur, hgap⟩
    refine ⟨?_, (gapIssues_eq_nil_iff 0 beats).mp hgap⟩
    by_contra hlt
    simp only [not_le] at hlt
    simp [hlt] at hdur
  · rintro ⟨hle, hchain⟩
    refine ⟨?_, (gapIssues_eq_nil_iff 0 beats).mpr hchain⟩
    have : ¬ (5 : Int) < |(beats.map (fun b => b.duration_seconds)).sum - target| := by
      omega
    simp [this]

/-! ## Shot Deriver properties (claim C5) -/

lemma shotsNeeded_pos (d : Int) : 1 ≤ shotsNeeded d := le_max_left 1 _

lemma rangeMap_shotDurationAt (d n : Int) (hn : 1 ≤ n) :
    (List.range n.toNat).map (fun idx => shotDurationAt d n idx)
      = List.replicate (n.toNat - 1) (Int.fdiv d n) ++ [d - Int.fdiv d n * (n - 1)] := by
  obtain ⟨k, hk⟩ : ∃ k, n.toNat = k + 1 :=
    ⟨n.toNat - 1, by omega⟩
  have hkn : (k : Int) = n - 1 := by omega
  rw [hk, List.range_succ, List.map_append, List.map_singleton]
  congr 1
  · rw [List.eq_replicate_iff]
    refine ⟨by simp [hk], ?_⟩
    intro b hb
    simp only [List.mem_map, List.mem_range] at hb
    obtain ⟨i, hi, rfl⟩ := hb
    unfold shotDurationAt
    rw [if_neg (by omega)]
  · unfold shotDurationAt
    rw [if_pos hkn]

lemma beatShotDurationsSpec_length (d : Int) :
    (beatShotDurationsSpec d).length = (shotsNeeded d).toNat := by
  have := shotsNeeded_pos d
  simp only [beatShotDurationsSpec, List.length_append, List.length_replicate,
    List.length_singleton]
  omega

lemma beatShotDurationsSpec_sum (d : Int) :
    (beatShotDurationsSpec d).sum = d := by
  have h1 := shotsNeeded_pos d
  set n := shotsNeeded d with hn
  have hkn : ((n.toNat - 1 : Nat) : Int) = n - 1 := by omega
  simp only [beatShotDurationsSpec, List.sum_append, List.sum_replicate,
    List.sum_singleton, nsmul_eq_mul, hkn]
  ring

lemma shotsLoop_durations (beats : List ALTBeat) (m : Int) :
    (shotsLoop beats m).map (fun s => s.duration_seconds)
      = beats.flatMap (fun b => beatShotDurationsSpec b.duration_seconds) := by
  induction beats generalizing m with
  | nil => simp [shotsLoop]
  | cons b rest ih =>
    have step : shotsLoop (b :: rest) m =
        ((List.range (shotsNeeded b.duration_seconds).toNat).map (fun (idx : Nat) =>
            generateShotFromBeat b (m + (idx : Int))
              (shotDurationAt b.duration_seconds (shotsNeeded b.duration_seconds) idx)
              (idx : Int)))
          ++ shotsLoop rest (m + (shotsNeeded b.duration_seconds).toNat) := rfl
    rw [step, List.map_append, List.map_map, ih, List.flatMap_cons]
    congr 1
    have hcomp : ((fun s => s.duration_seconds) ∘ fun (idx : Nat) =>
        generateShotFromBeat b (m + (idx : Int))
          (shotDurationAt b.duration_seconds (shotsNeeded b.duration_seconds) idx)
          (idx : Int))
        = fun idx => shotDurationAt b.duration_seconds (shotsNeeded b.duration_seconds) idx :=
      rfl
    rw [hcomp, rangeMap_shotDurationAt _ _ (shotsNeeded_pos _)]
    rfl

/-- C5: for every beat list, the shots `generate_shot_list` derives
group by beat into `max(1, round(duration / 6))` shots per beat (Python
banker's rounding), the per-beat group being `shots_needed - 1` shots of
`duration // shots_needed` followed by a last shot absorbing the
remainder, so each group's durations sum exactly to the beat's
`duration_seconds`. -/
theorem c5_shot_derivation (beats : List ALTBeat) (mode now : String) :
    ((generateShotList beats mode now).shots.map (fun s => s.duration_seconds)
        = beats.flatMap (fun b => beatShotDurationsSpec b.duration_seconds))
    ∧ (∀ d : Int, (beatShotDurationsSpec d).length
        = (max 1 (pyRoundHalfEven ((d : ℚ) / 6))).toNat)
    ∧ (∀ d : Int, (beatShotDurationsSpec d).sum = d) :=
  ⟨shotsLoop_durations beats 1,
   fun d => beatShotDurationsSpec_length d,
   fun d => beatShotDurationsSpec_sum d⟩

/-! ## Tone-selection properties (claim C6) -/

/-- C6 (counterexample): with a non-empty clarifications mapping that
lacks 'tone' and an RD whose tone is "casual", the computed tone is
Python `None` — not the RD's "casual" — and that `None` is what reaches
the generated (constructible) hook beat's `music_mood`; at script level
the same `None` makes `ScriptMetadata(tone=None)` raise a
`ValidationError` rather than fall back to the RD tone. -/
theorem c6_counterexample :
    toneOf (some c6Clar) c6Vrd = none
    ∧ (generateAltBeat "hook" 0 3 1 c6Vrd (some c6Clar)).map
        (fun b => b.audio_requirements.music_mood) = .ok none
    ∧ pyGet c6Vrd "tone" = some "casual"
    ∧ generateAltBeats [("tone", "casual"), ("estimated_duration", "1s")]
        (some c6Clar) "yolo" "t0"
        = .error "ValidationError: ScriptMetadata.tone" :=
  ⟨rfl, rfl, rfl, rfl⟩

/-- C6 (amended): the tone used by the beat generator is the
clarifications' 'tone' value whenever the clarifications mapping is
present and non-empty — including the `None` produced when that mapping
lacks the key, with no fallback to the RD — and only when clarifications
is absent or empty does it fall back to the RD's 'tone', then to
'professional'.  Every successfully constructed beat carries the computed
tone as its `music_mood`, and every successfully assembled script carries
it as its metadata tone (a `None` tone instead fails the `ScriptMetadata`
construction, see `c6_counterexample`). -/
theorem c6_tone_selection (clar : Option Dict) (vrd : Dict) (position : String)
    (start end_ beat_number : Int) (mode now : String) :
    ((clar = none ∨ clar = some []) →
      toneOf clar vrd = some (pyGetD vrd "tone" "professional"))
    ∧ (∀ l, clar = some l → l ≠ [] → toneOf clar vrd = pyGet l "tone")
    ∧ (∀ b, generateAltBeat position start end_ beat_number vrd clar = .ok b →
        b.audio_requirements.music_mood = toneOf clar vrd)
    ∧ (∀ s, generateAltBeats vrd clar mode now = .ok s →
        some s.metadata.tone = toneOf clar vrd) := by
  refine ⟨?_, ?_, ?_, ?_⟩
  · rintro (rfl | rfl) <;> simp [toneOf, pyTruthyDict]
  · rintro l rfl hl
    simp [toneOf, pyTruthyDict, List.isEmpty_eq_false.mpr hl]
  · intro b hb
    unfold generateAltBeat at hb
    rcases hv : pydanticBeatError position ((alistGet BEAT_TEMPLATES position).getD hookTemplate)
        with _ | e
    · simp only [hv, Except.ok.injEq] at hb
      subst hb
      rfl
    · simp [hv] at hb
  · intro s hs
    unfold generateAltBeats at hs
    rcases hp : pyIntParse (stripS (pyGetD vrd "estimated_duration" "60s")) with _ | dsec
    · simp [hp] at hs
    · simp only [hp] at hs
      rcases hbt : beatsFromTiming (calculateEightPartTiming dsec) 1 vrd clar
          with e | beats
      · simp [hbt] at hs
      · simp only [hbt] at hs
        rcases htn : toneOf clar vrd with _ | t
        · simp [htn] at hs
        · simp only [htn] at hs
          by_cases hm : (mode == "hitl" || mode == "yolo") = true
          · rw [if_pos hm] at hs
            simp only [Except.ok.injEq] at hs
            subst hs
            rfl
          · rw [if_neg hm] at hs
            simp at hs

/-- C6 (witness): the amended tone rules evaluated at concrete inputs:
an empty clarifications dict falls back to the RD tone, and a non-empty
one yields its own (here missing) 'tone' value. -/
theorem c6_tone_selection_witness :
    toneOf (some []) c6Vrd = some "casual"
    ∧ toneOf (some c6Clar) c6Vrd = pyGet c6Clar "tone" := by
  constructor
  · have h := (c6_tone_selection (some []) c6Vrd "hook" 0 3 1 "hitl" "t").1
      (Or.inr rfl)
    rw [h]
    rfl
  · exact (c6_tone_selection (some c6Clar) c6Vrd "hook" 0 3 1 "hitl" "t").2.1
      c6Clar rfl (by simp [c6Clar])

/-! ## Tool Selector properties (claim C4) -/

lemma pyRoundHalfEven_intCast (k : Int) : pyRoundHalfEven (k : ℚ) = k := by
  unfold pyRoundHalfEven
  rw [Int.floor_intCast]
  norm_num

lemma pyRound2_div100 (k : Int) : pyRound2 ((k : ℚ) / 100) = (k : ℚ) / 100 := by
  unfold pyRound2
  rw [div_mul_cancel₀ _ (by norm_num : (100 : ℚ) ≠ 0), pyRoundHalfEven_intCast]

lemma pyRound2_eq_self {q : ℚ} (h : IsCentRat q) : pyRound2 q = q := by
  obtain ⟨k, rfl⟩ := h
  exact pyRound2_div100 k

lemma IsCentRat.int_mul {q : ℚ} (d : Int) (h : IsCentRat q) : IsCentRat ((d : ℚ) * q) := by
  obtain ⟨k, rfl⟩ := h
  exact ⟨d * k, by push_cast; ring⟩

lemma IsCentRat.add {q r : ℚ} (hq : IsCentRat q) (hr : IsCentRat r) : IsCentRat (q + r) := by
  obtain ⟨k, rfl⟩ := hq
  obtain ⟨j, rfl⟩ := hr
  exact ⟨k + j, by push_cast; ring⟩

lemma alistGet_prop {α : Type} (P : α → Prop) (l : List (String × α)) (k : String)
    (d : α) (hl : ∀ p ∈ l, P p.2) (hd : P d) : P ((alistGet l k).getD d) := by
  rcases hf : alistGet l k with _ | v
  · exact hd
  · have hv : v ∈ l.map Prod.snd := by
      unfold alistGet at hf
      obtain ⟨p, hfind, hsnd⟩ := Option.map_eq_some'.mp hf
      exact hsnd ▸ List.mem_map_of_mem _ (List.mem_of_find?_eq_some hfind)
    simp only [Option.getD_some]
    simp only [List.mem_map] at hv
    obtain ⟨p, hp, rfl⟩ := hv
    exact hl p hp

lemma isCentRat_of_den {q : ℚ} (h : (q * 100).den = 1) : IsCentRat q := by
  refine ⟨(q * 100).num, ?_⟩
  have h2 : (((q * 100).num : ℚ)) = q * 100 := (Rat.den_eq_one_iff _).mp h
  rw [h2]
  field_simp

lemma sota_table_costs (c : String × List (String × ToolRec))
    (hc : c ∈ SOTA_TOOL_RECOMMENDATIONS) :
    ∀ p ∈ c.2, IsCentRat p.2.cost_per_second := by
  fin_cases hc <;>
    · intro p hp
      fin_cases hp <;> exact isCentRat_of_den (by norm_num)

lemma selectedToolRec_cost (st qp : String) :
    IsCentRat (selectedToolRec st qp).cost_per_second := by
  unfold selectedToolRec
  have htable : ∀ p ∈ (alistGet SOTA_TOOL_RECOMMENDATIONS
      (if (alistGet SOTA_TOOL_RECOMMENDATIONS st).isSome then st else "medium")).getD [],
      IsCentRat p.2.cost_per_second := by
    refine alistGet_prop
      (fun (tb : List (String × ToolRec)) => ∀ p ∈ tb, IsCentRat p.2.cost_per_second)
      SOTA_TOOL_RECOMMENDATIONS _ [] ?_ (by simp)
    intro c hc
    exact sota_table_costs c hc
  refine alistGet_prop (fun (r : ToolRec) => IsCentRat r.cost_per_second) _ qp _ htable ?_
  exact alistGet_prop (fun (r : ToolRec) => IsCentRat r.cost_per_second) _ "balanced" _ htable
    ⟨0, by norm_num [dummyToolRec]⟩

/-- C4: for every Shot and every constraints dict (hence every quality
tier and every shot type, in the lookup table or not), the Workflow
returned by `select_optimal_tool_for_shot` satisfies `total_cost = sum of
step costs` and `total_time_seconds = sum of step times` exactly, and its
steps beyond the first are exactly one fixed VFX step (cost 0.15, time
30s) when `requires_vfx` is set and none otherwise. -/
theorem c4_workflow_additivity (shot : Shot) (constraints : Option Dict) :
    (selectOptimalToolForShot shot constraints).total_cost
        = ((selectOptimalToolForShot shot constraints).steps.map (fun s => s.cost_usd)).sum
    ∧ (selectOptimalToolForShot shot constraints).total_time_seconds
        = ((selectOptimalToolForShot shot constraints).steps.map
            (fun s => s.estimated_time_seconds)).sum
    ∧ (selectOptimalToolForShot shot constraints).steps.drop 1
        = (if shot.technical_complexity.requires_vfx then [vfxWorkflowStep] else [])
    ∧ vfxWorkflowStep.cost_usd = 15 / 100
    ∧ vfxWorkflowStep.estimated_time_seconds = 30 := by
  have hcent : IsCentRat ((shot.duration_seconds : ℚ)
      * (selectedToolRec shot.shot_type
          (pyGetD (if pyTruthyDict constraints then constraints.getD [] else [])
            "quality_priority" "balanced")).cost_per_second) :=
    (selectedToolRec_cost _ _).int_mul shot.duration_seconds
  by_cases hv : shot.technical_complexity.requires_vfx
  · simp only [selectOptimalToolForShot, hv, if_true, List.map_cons, List.map_nil,
      List.sum_cons, List.sum_nil, List.drop_succ_cons, List.drop_nil]
    refine ⟨?_, ?_, by trivial, by trivial, by trivial⟩
    · rw [pyRound2_eq_self hcent,
        pyRound2_eq_self (hcent.add ⟨15, by norm_num [VFX_TOOL]⟩)]
      show _ = _ + (vfxWorkflowStep.cost_usd + 0)
      norm_num [vfxWorkflowStep, VFX_TOOL]
    · show _ = _ + (vfxWorkflowStep.estimated_time_seconds + 0)
      norm_num [vfxWorkflowStep]
  · simp only [selectOptimalToolForShot, hv, if_false, Bool.false_eq_true,
      List.map_cons, List.map_nil, List.sum_cons, List.sum_nil, List.drop_succ_cons,
      List.drop_nil]
    refine ⟨?_, by simp, by trivial, by trivial, by trivial⟩
    rw [pyRound2_eq_self hcent]
    simp

/-! ## Production Plan Aggregator properties (claim C9) -/

lemma toolsUsedAdd_sumValues (m : List (String × ℚ)) (k : String) (v : ℚ) :
    ((toolsUsedAdd m k v).map Prod.snd).sum = (m.map Prod.snd).sum + v := by
  induction m with
  | nil => simp [toolsUsedAdd]
  | cons p rest ih =>
    by_cases h : p.1 = k
    · simp [toolsUsedAdd, h]
      ring
    · simp [toolsUsedAdd, h, ih]
      ring

lemma stepsFold_sumValues (steps : List WorkflowStep) (tools : List (String × ℚ)) :
    ((steps.foldl (fun m s => toolsUsedAdd m s.tool s.cost_usd) tools).map Prod.snd).sum
      = (tools.map Prod.snd).sum + (steps.map (fun s => s.cost_usd)).sum := by
  induction steps generalizing tools with
  | nil => simp
  | cons s rest ih =>
    simp only [List.foldl_cons, List.map_cons, List.sum_cons, ih,
      toolsUsedAdd_sumValues]
    ring

lemma planLoop_cost (shots : List Shot) (c : Dict) :
    ∀ (plans : List ShotPlan) (cost : ℚ) (time : Int) (tools : List (String × ℚ)),
      (planLoop shots c plans cost time tools).2.1
        = cost + (shots.map (fun s => (selectOptimalToolForShot s (some c)).total_cost)).sum := by
  induction shots with
  | nil =>
    intro plans cost time tools
    simp [planLoop]
  | cons shot rest ih =>
    intro plans cost time tools
    simp only [planLoop]
    rw [ih]
    simp only [List.map_cons, List.sum_cons]
    ring

lemma planLoop_plans_cost (shots : List Shot) (c : Dict) :
    ∀ (plans : List ShotPlan) (cost : ℚ) (time : Int) (tools : List (String × ℚ)),
      ((planLoop shots c plans cost time tools).1.map
          (fun p => p.recommended_workflow.total_cost)).sum
        = (plans.map (fun p => p.recommended_workflow.total_cost)).sum
          + (shots.map (fun s => (selectOptimalToolForShot s (some c)).total_cost)).sum := by
  induction shots with
  | nil =>
    intro plans cost time tools
    simp [planLoop]
  | cons shot rest ih =>
    intro plans cost time tools
    simp only [planLoop]
    rw [ih]
    simp only [List.map_append, List.sum_append, List.map_cons, List.sum_cons,
      List.map_nil, List.sum_nil]
    ring

lemma planLoop_tools (shots : List Shot) (c : Dict) :
    ∀ (plans : List ShotPlan) (cost : ℚ) (time : Int) (tools : List (String × ℚ)),
      (((planLoop shots c plans cost time tools).2.2.2).map Prod.snd).sum
        = (tools.map Prod.snd).sum
          + (shots.map (fun s =>
              ((selectOptimalToolForShot s (some c)).steps.map (fun st => st.cost_usd)).sum)).sum := by
  induction shots with
  | nil =>
    intro plans cost time tools
    simp [planLoop]
  | cons shot rest ih =>
    intro plans cost time tools
    simp only [planLoop]
    rw [ih, stepsFold_sumValues]
    simp only [List.map_cons, List.sum_cons]
    ring

lemma planLoop_plans_steps (shots : List Shot) (c : Dict) :
    ∀ (plans : List ShotPlan) (cost : ℚ) (time : Int) (tools : List (String × ℚ)),
      (((planLoop shots c plans cost time tools).1).map (fun p =>
          (p.recommended_workflow.steps.map (fun st => st.cost_usd)).sum)).sum
        = (plans.map (fun p =>
            (p.recommended_workflow.steps.map (fun st => st.cost_usd)).sum)).sum
          + (shots.map (fun s =>
              ((selectOptimalToolForShot s (some c)).steps.map (fun st => st.cost_usd)).sum)).sum := by
  induction shots with
  | nil =>
    intro plans cost time tools
    simp [planLoop]
  | cons shot rest ih =>
    intro plans cost time tools
    simp only [planLoop]
    rw [ih]
    simp only [List.map_append, List.sum_append, List.map_cons, List.sum_cons,
      List.map_nil, List.sum_nil]
    ring

/-- C9: for every ShotList, constraints, and mode, the ProductionPlan's
`total_estimated_cost_usd` equals `round(sum of recommended workflows'
total_cost, 2)`, and the per-tool cost breakdown accumulates exactly the
`cost_usd` of every step of every recommended workflow (VFX steps
included): the breakdown's values sum to the sum over all shot plans of
all their steps' costs. -/
theorem c9_plan_aggregation (shot_list : ShotList) (constraints : Option Dict)
    (mode now : String) :
    (generateProductionPlan shot_list constraints mode now).total_estimated_cost_usd
      = pyRound2 (((generateProductionPlan shot_list constraints mode now).shot_plans.map
          (fun p => p.recommended_workflow.total_cost)).sum)
    ∧ (((generateProductionPlan shot_list constraints mode now).cost_breakdown.by_tool.map
          Prod.snd).sum)
      = ((generateProductionPlan shot_list constraints mode now).shot_plans.map
          (fun p => (p.recommended_workflow.steps.map (fun st => st.cost_usd)).sum)).sum := by
  simp only [generateProductionPlan]
  constructor
  · rw [planLoop_cost, planLoop_plans_cost]
    norm_num
  · rw [planLoop_tools, planLoop_plans_steps]
    norm_num

/-! ## Orchestrator precondition properties (claim C8) -/

/-- C8: each pipeline stage invoked before its dependency is set returns
the structured error result with its fixed message — `'VRD not set'`,
`'Script not generated'`, `'Shot list not generated'` — leaving the state
unchanged, and never raises: `generate_script` returns `Except.ok` (its
only error path is the duration parse, unreachable here), and
`generate_shots`/`generate_plan` are total functions with no error
channel at all. -/
theorem c8_stage_preconditions (o : Orchestrator) (constraints : Option Dict)
    (now : String) :
    (o.vrd = none → generateScript o now = .ok (.error "VRD not set", o))
    ∧ (o.script = none → generateShots o now = (.error "Script not generated", o))
    ∧ (o.shot_list = none → generatePlan o constraints now
        = (.error "Shot list not generated", o)) := by
  refine ⟨?_, ?_, ?_⟩
  · intro h
    simp [generateScript, h, pyTruthyDict]
  · intro h
    simp [generateShots, h]
  · intro h
    simp [generatePlan, h]

/-- C8 (witness): the three precondition errors on a freshly initialized
orchestrator. -/
theorem c8_stage_preconditions_witness :
    generateScript (initOrchestrator "hitl") "t"
        = .ok (.error "VRD not set", initOrchestrator "hitl")
    ∧ generateShots (initOrchestrator "hitl") "t"
        = (.error "Script not generated", initOrchestrator "hitl")
    ∧ generatePlan (initOrchestrator "hitl") none "t"
        = (.error "Shot list not generated", initOrchestrator "hitl") :=
  ⟨(c8_stage_preconditions (initOrchestrator "hitl") none "t").1 rfl,
   (c8_stage_preconditions (initOrchestrator "hitl") none "t").2.1 rfl,
   (c8_stage_preconditions (initOrchestrator "hitl") none "t").2.2 rfl⟩

/-! ## Clarifying-questions properties (claim C10) -/

lemma ask_hitl_facts (vrd : Dict) :
    askClarifyingQuestions vrd "hitl" ≠ []
    ∧ (askClarifyingQuestions vrd "hitl").length ≤ 5
    ∧ (∃ q ∈ askClarifyingQuestions vrd "hitl", q.key = "midpoint_emotion")
    ∧ (∃ q ∈ askClarifyingQuestions vrd "hitl", q.key = "act2_emphasis") := by
  by_cases h1 : pyFalsyStr (pyGet vrd "core_message") <;>
    by_cases h2 : pyFalsyStr (pyGet vrd "tone") <;>
      by_cases h3 : pyFalsyStr (pyGet vrd "cta") <;>
        · simp only [askClarifyingQuestions, h1, h2, h3]
          decide

/-- C10: in 'hitl' mode `ask_clarifying_questions` returns a non-empty
list for every RD, however complete — the midpoint-emotion and
act-2-emphasis questions are unconditional and survive both the stable
priority sort and the cap of 5 — so `set_vrd` on any hitl-mode
orchestrator always returns status 'needs_clarification' (never
'ready_for_script') and moves the state to 'awaiting_clarifications'. -/
theorem c10_hitl_always_needs_clarification (vrd : Dict) (o : Orchestrator)
    (hm : o.mode = "hitl") :
    askClarifyingQuestions vrd "hitl" ≠ []
    ∧ (askClarifyingQuestions vrd "hitl").length ≤ 5
    ∧ (∃ q ∈ askClarifyingQuestions vrd "hitl", q.key = "midpoint_emotion")
    ∧ (∃ q ∈ askClarifyingQuestions vrd "hitl", q.key = "act2_emphasis")
    ∧ (setVrd o vrd).1
        = SetVrdResult.needsClarification (askClarifyingQuestions vrd "hitl")
            "provide_clarifications"
    ∧ (setVrd o vrd).1.status = "needs_clarification"
    ∧ (setVrd o vrd).2.current_step = "awaiting_clarifications" := by
  obtain ⟨hne, hlen, hmid, hact⟩ := ask_hitl_facts vrd
  have hsv : (setVrd o vrd).1
        = SetVrdResult.needsClarification (askClarifyingQuestions vrd "hitl")
            "provide_clarifications"
      ∧ (setVrd o vrd).2.current_step = "awaiting_clarifications" := by
    unfold setVrd
    simp only [hm]
    rw [if_pos (by rfl)]
    rw [if_neg (by simpa [List.isEmpty_eq_true] using hne)]
    exact ⟨rfl, rfl⟩
  refine ⟨hne, hlen, hmid, hact, hsv.1, ?_, hsv.2⟩
  rw [hsv.1]
  rfl

/-- C10 (witness): the empty RD in 'hitl' mode triggers clarification on a
fresh orchestrator. -/
theorem c10_hitl_always_needs_clarification_witness :
    askClarifyingQuestions [] "hitl" ≠ []
    ∧ (setVrd (initOrchestrator "hitl") []).1.status = "needs_clarification" :=
  ⟨(c10_hitl_always_needs_clarification [] (initOrchestrator "hitl") rfl).1,
   (c10_hitl_always_needs_clarification [] (initOrchestrator "hitl") rfl).2.2.2.2.2.1⟩

/-! ## Full-pipeline behavior on a complete run (claim C2) -/

/-- C2 (code-bug evidence): on the well-formed RD
`{video_type: product_demo, estimated_duration: 60s, target_audience: B2B}`
(lacking `core_message` and `tone`):
in 'hitl' mode `execute_full_pipeline` returns the `needs_clarification`
result before any Script is generated (the orchestrator's `script` field
is still `None`), as the claim states; but in 'yolo' mode, where the
claim (and the spec's gating property, and the repository's own
`example_usage.py`) promise a `pipeline_complete` result with all four
aggregates populated, the run instead raises pydantic `ValidationError`:
the inciting_event span (3, 7) is positive at 60 seconds, and its
template's `slow_push` camera movement is not in the model's
`CameraMovement` Literal (third conjunct), so `generate_script` raises
inside the pipeline and no result dict is ever returned. -/
theorem c2_yolo_pipeline_raises :
    (executeFullPipeline (initOrchestrator "hitl") c2Vrd none "t0").map
        (fun r => (r.1.status, r.2.script)) = .ok ("needs_clarification", none)
    ∧ executeFullPipeline (initOrchestrator "yolo") c2Vrd none "t0"
        = .error "ValidationError: VisualRequirements.camera_movement"
    ∧ CameraMovementValues.contains
        ((alistGet BEAT_TEMPLATES "inciting_event").getD hookTemplate).camera_movement
        = false :=
  ⟨rfl, rfl, rfl⟩

end ProductionPipeline
